import Mathlib

/-!
Verification development for the recipe aggregation and labeling engine of
`nutrition_calculator_v2.py` (a Streamlit nutrition/cost calculator).

The source's numeric values (Python floats) are modelled as exact rationals
(`ℚ`); the UI session list `st.session_state.recipe` is modelled as a
`List RecipeItem`.  Python operations that can raise (float division by
zero) are modelled with `Except`, mirroring `ZeroDivisionError`.
-/

/-- A recipe line, as appended by the add-to-recipe handler
(source lines 446-455): a snapshot of the selected catalog row plus the
entered quantity in grams.  A missing CSV tag (`pandas` NaN) is `none`. -/
structure RecipeItem where
  name : String
  quantity : ℚ
  protein : ℚ
  fat : ℚ
  carbs : ℚ
  calories : ℚ
  cost : ℚ
  tag : Option String
deriving DecidableEq, Repr

/-- A catalog row of `ingredients_v2.csv`, restricted to the columns the
add-to-recipe handler snapshots (source lines 446-455). -/
structure Ingredient where
  name : String
  protein : ℚ
  fat : ℚ
  carbs : ℚ
  calories : ℚ
  cost : ℚ
  tag : Option String
deriving DecidableEq, Repr

/-! ## Character-level helpers (Python `str.lower` and `in`) -/

/-- Lower-casing of a single character, covering ASCII letters and the
Cyrillic range used by the source's tags (Python `str.lower`). -/
def rusLower (c : Char) : Char :=
  if 'A' ≤ c ∧ c ≤ 'Z' then Char.ofNat (c.toNat + 32)
  else if 'А' ≤ c ∧ c ≤ 'Я' then Char.ofNat (c.toNat + 32)
  else if c = 'Ё' then 'ё'
  else c

/-- `isPrefixB needle hay`: `needle` is a prefix of `hay`. -/
def isPrefixB : List Char → List Char → Bool
  | [], _ => true
  | _ :: _, [] => false
  | a :: as, b :: bs => a = b && isPrefixB as bs

/-- `containsSub hay needle`: Python's `needle in hay` on strings,
as character lists. -/
def containsSub : List Char → List Char → Bool
  | [], needle => isPrefixB needle []
  | a :: t, needle => isPrefixB needle (a :: t) || containsSub t needle

/-- The lower-cased character sequence of a tag: `tag.lower()`. -/
def lowerData (s : String) : List Char :=
  s.data.map rusLower

/-! ## Allergen classifier (`extract_allergens`, source lines 43-67) -/

def dairy_label : String := "молоко и продукты его переработки (включая лактозу)"

def gluten_label : String := "злаки, содержащие глютен (пшеница, рожь, ячмень, овес)"

def egg_label : String := "яйца и продукты их переработки"

def nuts_label : String := "орехи и продукты их переработки"

def peanut_label : String := "арахис и продукты его переработки"

def soy_label : String := "соя и продукты ее переработки"

/-- The six sequential category checks of `extract_allergens`
(source lines 54-65), on an already-lowered tag: each check appends its
canonical label when one of its trigger substrings occurs. -/
def classify_core (tl : List Char) : List String :=
  (if containsSub tl "лактоза".data || containsSub tl "молочн".data then
    [dairy_label] else []) ++
  (if containsSub tl "глютен".data || containsSub tl "пшениц".data then
    [gluten_label] else []) ++
  (if containsSub tl "яй".data || containsSub tl "яиц".data then
    [egg_label] else []) ++
  (if containsSub tl "орех".data then [nuts_label] else []) ++
  (if containsSub tl "арахис".data then [peanut_label] else []) ++
  (if containsSub tl "сое".data || containsSub tl "соев".data ||
      containsSub tl "соя".data then [soy_label] else [])

/-- `extract_allergens` (source lines 43-67): a missing (`pd.isna`) or
empty tag yields no allergens; otherwise the lowered tag must contain the
marker `"#аллерген"` for the six category checks to run. -/
def extract_allergens : Option String → List String
  | none => []
  | some tag =>
    if tag = "" then []
    else
      let tl := lowerData tag
      if containsSub tl "#аллерген".data then classify_core tl
      else []

/-- A row of the spec's fixed category table (§4.1): trigger substrings
and the canonical disclosure label. -/
structure AllergenCategory where
  triggers : List String
  label : String
deriving DecidableEq, Repr

/-- The six-category trigger/label table, as listed in the source's
six `if` tests. -/
def allergen_table : List AllergenCategory :=
  [⟨["лактоза", "молочн"], dairy_label⟩,
   ⟨["глютен", "пшениц"], gluten_label⟩,
   ⟨["яй", "яиц"], egg_label⟩,
   ⟨["орех"], nuts_label⟩,
   ⟨["арахис"], peanut_label⟩,
   ⟨["сое", "соев", "соя"], soy_label⟩]

/-- A category matches a lowered tag when one of its triggers occurs. -/
def categoryMatches (c : AllergenCategory) (tl : List Char) : Bool :=
  c.triggers.any (fun t => containsSub tl t.data)

/-- The lowered tag contains the allergen marker `"#аллерген"`. -/
def hasMarker (s : String) : Bool :=
  containsSub (lowerData s) "#аллерген".data

/-! ## Recipe aggregation (source lines 487-503) -/

/-- `total_weight = sum(item['quantity'] for item in recipe)` (line 487). -/
def total_weight (recipe : List RecipeItem) : ℚ :=
  recipe.foldl (fun acc item => acc + item.quantity) 0

/-- `total_protein = sum(item['protein'] * item['quantity'] / 100 ...)` (line 490). -/
def total_protein (recipe : List RecipeItem) : ℚ :=
  recipe.foldl (fun acc item => acc + item.protein * item.quantity / 100) 0

/-- Line 491. -/
def total_fat (recipe : List RecipeItem) : ℚ :=
  recipe.foldl (fun acc item => acc + item.fat * item.quantity / 100) 0

/-- Line 492. -/
def total_carbs (recipe : List RecipeItem) : ℚ :=
  recipe.foldl (fun acc item => acc + item.carbs * item.quantity / 100) 0

/-- Line 493. -/
def total_calories (recipe : List RecipeItem) : ℚ :=
  recipe.foldl (fun acc item => acc + item.calories * item.quantity / 100) 0

/-- `total_cost = sum(item['cost'] * item['quantity'] / 1000 ...)` (line 496). -/
def total_cost (recipe : List RecipeItem) : ℚ :=
  recipe.foldl (fun acc item => acc + item.cost * item.quantity / 1000) 0

/-- `cost_per_kg = (total_cost / total_weight) * 1000 if total_weight > 0 else 0` (line 497). -/
def cost_per_kg (recipe : List RecipeItem) : ℚ :=
  if 0 < total_weight recipe then total_cost recipe / total_weight recipe * 1000 else 0

/-- Line 500. -/
def protein_per_100g (recipe : List RecipeItem) : ℚ :=
  if 0 < total_weight recipe then total_protein recipe / total_weight recipe * 100 else 0

/-- Line 501. -/
def fat_per_100g (recipe : List RecipeItem) : ℚ :=
  if 0 < total_weight recipe then total_fat recipe / total_weight recipe * 100 else 0

/-- Line 502. -/
def carbs_per_100g (recipe : List RecipeItem) : ℚ :=
  if 0 < total_weight recipe then total_carbs recipe / total_weight recipe * 100 else 0

/-- Line 503. -/
def calories_per_100g (recipe : List RecipeItem) : ℚ :=
  if 0 < total_weight recipe then total_calories recipe / total_weight recipe * 100 else 0

/-- The spec's `AggregateResult` (§3): all derived values of the
aggregation block, bundled. -/
structure AggregateResult where
  total_weight_g : ℚ
  total_protein_g : ℚ
  total_fat_g : ℚ
  total_carbs_g : ℚ
  total_calories_kcal : ℚ
  total_cost : ℚ
  cost_per_kg : ℚ
  protein_per_100g : ℚ
  fat_per_100g : ℚ
  carbs_per_100g : ℚ
  calories_per_100g : ℚ
deriving DecidableEq, Repr

/-- The aggregation block (source lines 487-503) as one function. -/
def aggregate (recipe : List RecipeItem) : AggregateResult :=
  { total_weight_g := total_weight recipe
    total_protein_g := total_protein recipe
    total_fat_g := total_fat recipe
    total_carbs_g := total_carbs recipe
    total_calories_kcal := total_calories recipe
    total_cost := total_cost recipe
    cost_per_kg := cost_per_kg recipe
    protein_per_100g := protein_per_100g recipe
    fat_per_100g := fat_per_100g recipe
    carbs_per_100g := carbs_per_100g recipe
    calories_per_100g := calories_per_100g recipe }

/-- The all-zero `AggregateResult`. -/
def zeroAggregate : AggregateResult :=
  ⟨0, 0, 0, 0, 0, 0, 0, 0, 0, 0, 0⟩

/-! ## Presentation rounding and formatting -/

/-- Round a rational to the nearest integer, ties to even
(IEEE-754 / Python `round` and `format` rounding). -/
def rne (q : ℚ) : ℤ :=
  let f : ℤ := q.num.fdiv (q.den : ℤ)
  let r : ℚ := q - (f : ℚ)
  if r < 1 / 2 then f
  else if 1 / 2 < r then f + 1
  else if f % 2 = 0 then f else f + 1

/-- Python `f"{q:.1f}"`: one decimal place, round half to even. -/
def fmt1 (q : ℚ) : String :=
  let n := rne (q * 10)
  let sign := if n < 0 then "-" else ""
  let m := n.natAbs
  sign ++ toString (m / 10) ++ "." ++ toString (m % 10)

/-- Python `round(x, n)` (round half to even at `n` decimals). -/
def round_to (n : ℕ) (x : ℚ) : ℚ :=
  (rne (x * 10 ^ n) : ℚ) / 10 ^ n

/-! ## Composition formatter (source lines 536-545) -/

/-- The sort key relation of `sorted(recipe, key=lambda x: x['quantity'],
reverse=True)`: `a` may come before `b` iff `a`'s quantity is ≥ `b`'s. -/
def qGe (a b : RecipeItem) : Prop :=
  b.quantity ≤ a.quantity

instance : DecidableRel qGe :=
  fun a b => inferInstanceAs (Decidable (b.quantity ≤ a.quantity))

instance : IsTotal RecipeItem qGe :=
  ⟨fun a b => le_total b.quantity a.quantity⟩

instance : IsTrans RecipeItem qGe :=
  ⟨fun _ _ _ hab hbc => le_trans hbc hab⟩

/-- `sorted_recipe = sorted(recipe, key=lambda x: x['quantity'],
reverse=True)` (line 536): a stable descending sort by quantity, modelled
by insertion sort (which the stability theorem below pins down). -/
def sorted_recipe (recipe : List RecipeItem) : List RecipeItem :=
  List.insertionSort qGe recipe

/-- The per-line percentages as computed at line 542,
`(item['quantity'] / total_weight) * 100`, in exact arithmetic. -/
def composition_percentages (recipe : List RecipeItem) : List ℚ :=
  (sorted_recipe recipe).map (fun item => item.quantity / total_weight recipe * 100)

/-- The rendered entries `f"{item['name']} ({percentage:.1f}%)"` (line 543). -/
def composition_list (recipe : List RecipeItem) : List String :=
  (sorted_recipe recipe).map (fun item =>
    item.name ++ " (" ++ fmt1 (item.quantity / total_weight recipe * 100) ++ "%)")

/-- `composition_text = ", ".join(composition_list) + "."` (line 545). -/
def composition_text (recipe : List RecipeItem) : String :=
  String.intercalate ", " (composition_list recipe) ++ "."

/-- Python float division, which raises `ZeroDivisionError` on a zero
denominator. -/
def safe_div (a b : ℚ) : Except String ℚ :=
  if b = 0 then Except.error "ZeroDivisionError" else Except.ok (a / b)

/-- The composition loop (lines 540-543) with Python's faulting division:
each line computes `quantity / total_weight` and renders its entry. -/
def render_lines (total : ℚ) : List RecipeItem → Except String (List String)
  | [] => Except.ok []
  | item :: rest =>
    match safe_div item.quantity total with
    | Except.error e => Except.error e
    | Except.ok pct =>
      match render_lines total rest with
      | Except.error e => Except.error e
      | Except.ok others =>
        Except.ok ((item.name ++ " (" ++ fmt1 (pct * 100) ++ "%)") :: others)

/-- The whole composition block (lines 536-545) with Python's faulting
division semantics. -/
def composition_result (recipe : List RecipeItem) : Except String String :=
  match render_lines (total_weight recipe) (sorted_recipe recipe) with
  | Except.error e => Except.error e
  | Except.ok parts => Except.ok (String.intercalate ", " parts ++ ".")

/-- Follows the spec's words (§4.3): sort lines by quantity descending
(stable), give each line the percentage `quantity_g / total_weight_g × 100`
to one decimal place, join names (each optionally suffixed with the
parenthesized percentage, controlled by `include_percentages`) by `", "`,
terminate with a period. -/
def composition_render_spec (include_percentages : Bool) (recipe : List RecipeItem) :
    String :=
  let total := total_weight recipe
  let parts := (sorted_recipe recipe).map (fun item =>
    if include_percentages then
      item.name ++ " (" ++ fmt1 (item.quantity / total * 100) ++ "%)"
    else
      item.name)
  String.intercalate ", " parts ++ "."

/-! ## Allergen disclosure over a whole recipe (source lines 556-564) -/

/-- `all_allergens = set(); for item in recipe:
all_allergens.update(extract_allergens(item['tag']))` (lines 556-559),
as the duplicate-free list of all per-line allergens. -/
def all_allergens (recipe : List RecipeItem) : List String :=
  ((recipe.map (fun item => extract_allergens item.tag)).flatten).dedup

/-- `sorted(all_allergens)` (line 564): the disclosure in ascending order. -/
def allergens_sorted (recipe : List RecipeItem) : List String :=
  List.insertionSort (· ≤ ·) (all_allergens recipe)

/-- The rendered allergen text (lines 561-569): a bullet list, or the
"none found" sentinel. -/
def allergens_text (recipe : List RecipeItem) : String :=
  if all_allergens recipe = [] then "Аллергены не обнаружены"
  else String.join ((allergens_sorted recipe).map (fun a => "- " ++ a ++ "\n"))

/-! ## Add-to-recipe boundary (source lines 424-457) -/

/-- The quantity widget's lower bound: `st.number_input(..., min_value=0.0)`
(line 426).  The widget accepts exactly the values at or above this bound. -/
def quantity_input_min : ℚ := 0

/-- The quantity widget accepts `q` (lines 424-430). -/
def quantity_input_accepts (q : ℚ) : Bool :=
  quantity_input_min ≤ q

/-- The add-to-recipe handler (lines 433-457): a duplicate ingredient name
leaves the recipe unchanged; otherwise a snapshot line is appended. -/
def add_to_recipe (recipe : List RecipeItem) (ing : Ingredient) (quantity : ℚ) :
    List RecipeItem :=
  if recipe.any (fun item => item.name == ing.name) then recipe
  else recipe ++ [⟨ing.name, quantity, ing.protein, ing.fat, ing.carbs,
                  ing.calories, ing.cost, ing.tag⟩]

/-! ## Save-recipe / record builder (source lines 577-604) -/

/-- Python `str.isspace`-style whitespace as used by `strip`. -/
def strip_chars (l : List Char) : List Char :=
  ((l.dropWhile Char.isWhitespace).reverse.dropWhile Char.isWhitespace).reverse

/-- `recipe_name.strip() == ""`. -/
def is_blank (s : String) : Bool :=
  strip_chars s.data = []

/-- The exported record (lines 582-604): the sorted line list (name and
quantity only) plus the calculations block with presentation rounding. -/
structure RecipeRecord where
  recipe_data : List (String × ℚ)
  total_weight_g : ℚ
  protein_100 : ℚ
  fat_100 : ℚ
  carbs_100 : ℚ
  calories_100 : ℚ
  cost_total : ℚ
  cost_kg : ℚ
  composition : String
  allergens : String
deriving DecidableEq, Repr

/-- The save-recipe handler (lines 577-604): a missing or whitespace-only
recipe name is rejected with an error message and no record is built;
otherwise the record is assembled. -/
def save_recipe (recipe_name : String) (recipe : List RecipeItem) :
    Except String RecipeRecord :=
  if recipe_name = "" ∨ is_blank recipe_name = true then
    Except.error "Введите название изделия для сохранения!"
  else
    Except.ok
      { recipe_data := (sorted_recipe recipe).map (fun i => (i.name, i.quantity))
        total_weight_g := total_weight recipe
        protein_100 := round_to 2 (protein_per_100g recipe)
        fat_100 := round_to 2 (fat_per_100g recipe)
        carbs_100 := round_to 2 (carbs_per_100g recipe)
        calories_100 := round_to 1 (calories_per_100g recipe)
        cost_total := round_to 2 (total_cost recipe)
        cost_kg := round_to 2 (cost_per_kg recipe)
        composition := composition_text recipe
        allergens := allergens_text recipe }

/-! ## Concrete inputs (the spec's §8 worked example) -/

/-- Catalog row of the spec's example: Flour. -/
def flour_ing : Ingredient :=
  ⟨"Flour", 10, 1, 70, 330, 40, none⟩

/-- The spec's example line Flour 300g. -/
def flour_line : RecipeItem :=
  ⟨"Flour", 300, 10, 1, 70, 330, 40, none⟩

/-- The spec's example line Sugar 200g. -/
def sugar_line : RecipeItem :=
  ⟨"Sugar", 200, 0, 0, 100, 400, 60, none⟩

/-- The spec's §8 example recipe: Flour 300g, Sugar 200g. -/
def demo_recipe : List RecipeItem :=
  [flour_line, sugar_line]

/-- A tagged line whose tag declares soy. -/
def soy_item : RecipeItem :=
  ⟨"Тофу", 1, 0, 0, 0, 0, 0, some "#аллерген соя"⟩

/-- A tagged line whose tag declares tree nuts. -/
def nut_item : RecipeItem :=
  ⟨"Фундук", 1, 0, 0, 0, 0, 0, some "#аллерген орех"⟩

/-! ## Helper lemmas -/

theorem foldl_add_map (f : RecipeItem → ℚ) (l : List RecipeItem) (a : ℚ) :
    l.foldl (fun acc i => acc + f i) a = a + (l.map f).sum := by
  induction l generalizing a with
  | nil => simp
  | cons x t ih =>
    rw [List.foldl_cons, ih, List.map_cons, List.sum_cons]
    ring

theorem total_weight_eq_sum (recipe : List RecipeItem) :
    total_weight recipe = (recipe.map (fun i => i.quantity)).sum := by
  simpa using foldl_add_map (fun i => i.quantity) recipe 0

/-! ## C1 -/

/-- C1: for every list of recipe lines, the aggregator's totals are the
sums over lines: `total_weight_g = Σ quantity_g`, each macro/calorie total
is `Σ (per-100g value × quantity_g / 100)`, and
`total_cost = Σ (cost_per_kg × quantity_g / 1000)`. -/
theorem aggregate_totals_c1 (recipe : List RecipeItem) :
    (aggregate recipe).total_weight_g = (recipe.map (fun i => i.quantity)).sum ∧
    (aggregate recipe).total_protein_g =
      (recipe.map (fun i => i.protein * i.quantity / 100)).sum ∧
    (aggregate recipe).total_fat_g =
      (recipe.map (fun i => i.fat * i.quantity / 100)).sum ∧
    (aggregate recipe).total_carbs_g =
      (recipe.map (fun i => i.carbs * i.quantity / 100)).sum ∧
    (aggregate recipe).total_calories_kcal =
      (recipe.map (fun i => i.calories * i.quantity / 100)).sum ∧
    (aggregate recipe).total_cost =
      (recipe.map (fun i => i.cost * i.quantity / 1000)).sum := by
  refine ⟨?_, ?_, ?_, ?_, ?_, ?_⟩ <;>
    simp [aggregate, total_weight, total_protein, total_fat, total_carbs,
      total_calories, total_cost, foldl_add_map]

/-! ## C4 -/

/-- C4: the aggregator never divides by zero: whenever `total_weight_g = 0`
the cost-per-kg and all four per-100g values are 0, and aggregating the
empty line sequence yields the all-zero `AggregateResult`. -/
theorem aggregate_empty_c4 :
    aggregate [] = zeroAggregate ∧
    ∀ recipe : List RecipeItem, total_weight recipe = 0 →
      (aggregate recipe).cost_per_kg = 0 ∧
      (aggregate recipe).protein_per_100g = 0 ∧
      (aggregate recipe).fat_per_100g = 0 ∧
      (aggregate recipe).carbs_per_100g = 0 ∧
      (aggregate recipe).calories_per_100g = 0 := by
  constructor
  · with_unfolding_all rfl
  · intro recipe h
    refine ⟨?_, ?_, ?_, ?_, ?_⟩ <;>
      simp [aggregate, cost_per_kg, protein_per_100g, fat_per_100g,
        carbs_per_100g, calories_per_100g, h]

/-- Witness for C4 at the empty recipe. -/
theorem aggregate_empty_c4_witness :
    (aggregate []).cost_per_kg = 0 ∧
    (aggregate []).protein_per_100g = 0 ∧
    (aggregate []).fat_per_100g = 0 ∧
    (aggregate []).carbs_per_100g = 0 ∧
    (aggregate []).calories_per_100g = 0 :=
  aggregate_empty_c4.2 [] rfl

/-! ## C2: composition ordering and rendering -/

theorem filter_orderedInsert_quantity (q : ℚ) (a : RecipeItem) (s : List RecipeItem) :
    (List.orderedInsert qGe a s).filter (fun x => x.quantity == q) =
      if a.quantity == q then a :: s.filter (fun x => x.quantity == q)
      else s.filter (fun x => x.quantity == q) := by
  induction s with
  | nil =>
    by_cases h : a.quantity = q <;>
      simp [List.orderedInsert, List.filter_cons, h]
  | cons b t ih =>
    rw [List.orderedInsert]
    by_cases hab : qGe a b
    · rw [if_pos hab]
      simp [List.filter_cons]
    · rw [if_neg hab]
      have hlt : a.quantity < b.quantity := not_le.mp hab
      have hne : (b.quantity == q) = true → (a.quantity == q) = false := by
        intro hbq
        have : b.quantity = q := beq_iff_eq.mp hbq
        exact beq_eq_false_iff_ne.mpr (by rw [← this]; exact ne_of_lt hlt)
      rw [List.filter_cons, List.filter_cons, ih]
      by_cases hbq : (b.quantity == q) = true
      · rw [hne hbq] at *
        simp [hbq, hne hbq]
      · simp only [Bool.not_eq_true] at hbq
        simp [hbq]

theorem filter_insertionSort_quantity (q : ℚ) (l : List RecipeItem) :
    (List.insertionSort qGe l).filter (fun x => x.quantity == q) =
      l.filter (fun x => x.quantity == q) := by
  induction l with
  | nil => rfl
  | cons a t ih =>
    rw [List.insertionSort, filter_orderedInsert_quantity, List.filter_cons, ih]

/-- C2: for every list of recipe lines the composition formatter's order is
a permutation of the lines sorted by quantity descending, with ties kept
stable (restricting the sorted list to any one quantity value reproduces
the original order), and the rendered declaration is the names, each
suffixed with its parenthesized percentage (`quantity / total × 100` to one
decimal place), joined by `", "` and terminated with a period — i.e. it
agrees with the spec-worded renderer with percentages on. -/
theorem composition_c2 (recipe : List RecipeItem) :
    List.Perm (sorted_recipe recipe) recipe ∧
    (sorted_recipe recipe).Sorted qGe ∧
    (∀ q : ℚ, (sorted_recipe recipe).filter (fun x => x.quantity == q) =
      recipe.filter (fun x => x.quantity == q)) ∧
    composition_text recipe = composition_render_spec true recipe := by
  refine ⟨List.perm_insertionSort qGe recipe, List.sorted_insertionSort qGe recipe,
    fun q => filter_insertionSort_quantity q recipe, ?_⟩
  simp [composition_text, composition_render_spec, composition_list]

/-! ## C6: the percentage-rendering policy -/

/-- C6 counterexample: the source's composition block renders the spec's §8
example with percentage suffixes and differs from the percentage-free
rendering — the source has no `include_percentages` flag and never omits
the suffixes. -/
theorem composition_flag_c6_cex :
    composition_text demo_recipe ≠ composition_render_spec false demo_recipe ∧
    composition_text demo_recipe = "Flour (60.0%), Sugar (40.0%)." ∧
    composition_render_spec false demo_recipe = "Flour, Sugar." := by
  refine ⟨by with_unfolding_all decide, by with_unfolding_all rfl,
    by with_unfolding_all rfl⟩

/-- C6 amended: the composition formatter implements exactly the
percentages-on policy of the spec's configurable renderer; no flag exists
in the source and the percentage-free policy is not implemented. -/
theorem composition_flag_c6 (recipe : List RecipeItem) :
    composition_text recipe = composition_render_spec true recipe := by
  simp [composition_text, composition_render_spec, composition_list]

/-! ## C5: composition on an empty recipe -/

theorem render_lines_ok (total : ℚ) (h : total ≠ 0) (l : List RecipeItem) :
    render_lines total l = Except.ok (l.map (fun item =>
      item.name ++ " (" ++ fmt1 (item.quantity / total * 100) ++ "%)")) := by
  induction l with
  | nil => rfl
  | cons x t ih => simp [render_lines, safe_div, h, ih]

/-- C5 counterexample: invoked on the empty recipe, the composition block
does not fail at all — there is no `EmptyRecipeError`-style failure; the
loop performs no division and the block returns the bare terminator `"."`. -/
theorem composition_empty_c5_cex : composition_result [] = Except.ok "." := by
  with_unfolding_all rfl

/-- C5 amended: the composition block raises no numeric fault on an empty
recipe — it performs no division and returns `"."` (and in the app it is
additionally guarded behind a non-empty check); for every recipe of
positive total weight it likewise completes without fault, returning the
rendered declaration.  No descriptive `EmptyRecipeError` is produced. -/
theorem composition_empty_c5 :
    composition_result [] = Except.ok (composition_text []) ∧
    composition_text [] = "." ∧
    ∀ recipe : List RecipeItem, 0 < total_weight recipe →
      composition_result recipe = Except.ok (composition_text recipe) := by
  refine ⟨by with_unfolding_all rfl, by with_unfolding_all rfl, fun recipe h => ?_⟩
  unfold composition_result
  rw [render_lines_ok _ (ne_of_gt h)]
  rfl

/-- Witness for C5 at the spec's §8 example recipe. -/
theorem composition_empty_c5_witness :
    composition_result demo_recipe = Except.ok (composition_text demo_recipe) :=
  composition_empty_c5.2.2 demo_recipe (by with_unfolding_all decide)

/-! ## C8: percentages sum to 100 -/

theorem sum_map_div_mul (T : ℚ) (l : List RecipeItem) :
    (l.map (fun i => i.quantity / T * 100)).sum =
      (l.map (fun i => i.quantity)).sum / T * 100 := by
  induction l with
  | nil => simp
  | cons x t ih =>
    rw [List.map_cons, List.sum_cons, List.map_cons, List.sum_cons, ih]
    ring

/-- C8: for every recipe of positive total weight, the per-line
percentages computed by the composition formatter sum to exactly 100 in
exact rational arithmetic, hence within the 1e-6 tolerance of 100.0. -/
theorem percentages_sum_c8 (recipe : List RecipeItem) (h : 0 < total_weight recipe) :
    (composition_percentages recipe).sum = 100 ∧
    (|(composition_percentages recipe).sum - 100| ≤ 1 / 1000000) := by
  have hperm : List.Perm (composition_percentages recipe)
      (recipe.map (fun i => i.quantity / total_weight recipe * 100)) :=
    (List.perm_insertionSort qGe recipe).map _
  have hsum : (composition_percentages recipe).sum = 100 := by
    rw [hperm.sum_eq, sum_map_div_mul, ← total_weight_eq_sum,
      div_self (ne_of_gt h), one_mul]
  exact ⟨hsum, by rw [hsum]; norm_num⟩

/-- Witness for C8 at the spec's §8 example recipe. -/
theorem percentages_sum_c8_witness :
    0 < total_weight demo_recipe ∧
    (composition_percentages demo_recipe).sum = 100 ∧
    (|(composition_percentages demo_recipe).sum - 100| ≤ 1 / 1000000) :=
  ⟨by with_unfolding_all decide,
   percentages_sum_c8 demo_recipe (by with_unfolding_all decide)⟩

/-! ## C3: the allergen classifier -/

theorem classify_core_eq_table (tl : List Char) :
    classify_core tl =
      (allergen_table.filter (fun c => categoryMatches c tl)).map
        (fun c => c.label) := by
  simp only [classify_core, allergen_table, categoryMatches,
    List.filter_cons, List.filter_nil, List.any_cons, List.any_nil,
    Bool.or_false, Bool.or_assoc]
  split_ifs <;> rfl

theorem extract_allergens_marker (s : String) (hs : s ≠ "")
    (h : hasMarker s = true) :
    extract_allergens (some s) =
      (allergen_table.filter (fun c => categoryMatches c (lowerData s))).map
        (fun c => c.label) := by
  unfold hasMarker at h
  rw [← classify_core_eq_table]
  simp only [extract_allergens, if_neg hs, h, if_true]

theorem allergen_labels_nodup : (allergen_table.map (fun c => c.label)).Nodup := by
  decide

/-- C3: the classifier returns the empty set for an absent or empty tag,
and for any tag whose lowering lacks the marker `"#аллерген"`; when the
marker is present the result is duplicate-free and contains exactly the
canonical labels of the table categories whose trigger substrings occur in
the lowered tag (categories tested independently). -/
theorem extract_allergens_c3 (t : Option String) :
    (t = none → extract_allergens t = []) ∧
    (t = some "" → extract_allergens t = []) ∧
    (∀ s, t = some s → hasMarker s = false → extract_allergens t = []) ∧
    (∀ s, t = some s → hasMarker s = true →
      (extract_allergens t).Nodup ∧
      ∀ lbl, lbl ∈ extract_allergens t ↔
        ∃ c ∈ allergen_table, categoryMatches c (lowerData s) = true ∧
          c.label = lbl) := by
  refine ⟨fun h => by subst h; rfl, fun h => by subst h; rfl, ?_, ?_⟩
  · intro s ht h
    subst ht
    by_cases hs : s = ""
    · subst hs; rfl
    · unfold hasMarker at h
      simp [extract_allergens, if_neg hs, h]
  · intro s ht h
    subst ht
    have hs : s ≠ "" := by
      intro hs
      subst hs
      rw [show hasMarker "" = false from rfl] at h
      exact Bool.false_ne_true h
    rw [extract_allergens_marker s hs h]
    constructor
    · exact allergen_labels_nodup.sublist
        (List.Sublist.map (fun c : AllergenCategory => c.label)
          (List.filter_sublist allergen_table))
    · intro lbl
      simp only [List.mem_map, List.mem_filter]
      constructor
      · rintro ⟨c, ⟨hc, hm⟩, hl⟩
        exact ⟨c, hc, hm, hl⟩
      · rintro ⟨c, hc, hm, hl⟩
        exact ⟨c, ⟨hc, hm⟩, hl⟩

/-- Witness for C3: an unmarked tag yields nothing, and a marked tag with
two triggers yields both category labels. -/
theorem extract_allergens_c3_witness :
    extract_allergens (some "молочный шоколад") = [] ∧
    gluten_label ∈ extract_allergens (some "#аллерген пшеница, орех") ∧
    nuts_label ∈ extract_allergens (some "#аллерген пшеница, орех") := by
  refine ⟨?_, ?_, ?_⟩
  · exact (extract_allergens_c3 (some "молочный шоколад")).2.2.1
      "молочный шоколад" rfl (by with_unfolding_all rfl)
  · exact (((extract_allergens_c3 (some "#аллерген пшеница, орех")).2.2.2
      "#аллерген пшеница, орех" rfl (by with_unfolding_all rfl)).2 gluten_label).mpr
      ⟨⟨["глютен", "пшениц"], gluten_label⟩, by simp [allergen_table],
        by with_unfolding_all rfl, rfl⟩
  · exact (((extract_allergens_c3 (some "#аллерген пшеница, орех")).2.2.2
      "#аллерген пшеница, орех" rfl (by with_unfolding_all rfl)).2 nuts_label).mpr
      ⟨⟨["орех"], nuts_label⟩, by simp [allergen_table],
        by with_unfolding_all rfl, rfl⟩

/-! ## C9: the allergen disclosure -/

theorem mem_allergens_sorted (recipe : List RecipeItem) (s : String) :
    s ∈ allergens_sorted recipe ↔
      ∃ item ∈ recipe, s ∈ extract_allergens item.tag := by
  rw [allergens_sorted, (List.perm_insertionSort (· ≤ ·) _).mem_iff]
  simp [all_allergens, List.mem_dedup, List.mem_flatten]

theorem nodup_allergens_sorted (recipe : List RecipeItem) :
    (allergens_sorted recipe).Nodup :=
  ((List.perm_insertionSort (· ≤ ·) _).nodup_iff).mpr (List.nodup_dedup _)

theorem sorted_allergens_sorted (recipe : List RecipeItem) :
    (allergens_sorted recipe).Sorted (· ≤ ·) :=
  List.sorted_insertionSort (· ≤ ·) _

/-- C9: the disclosure is duplicate-free, sorted ascending, contains
exactly the union over the lines of the classifier's per-line results, and
is invariant under permutation of the lines. -/
theorem allergens_c9 (recipe : List RecipeItem) :
    (allergens_sorted recipe).Nodup ∧
    (allergens_sorted recipe).Sorted (· ≤ ·) ∧
    (∀ s, s ∈ allergens_sorted recipe ↔
      ∃ item ∈ recipe, s ∈ extract_allergens item.tag) ∧
    ∀ recipe2, List.Perm recipe recipe2 →
      allergens_sorted recipe = allergens_sorted recipe2 := by
  refine ⟨nodup_allergens_sorted recipe, sorted_allergens_sorted recipe,
    mem_allergens_sorted recipe, fun recipe2 hperm => ?_⟩
  refine List.eq_of_perm_of_sorted ?_ (sorted_allergens_sorted recipe)
    (sorted_allergens_sorted recipe2)
  refine (List.perm_ext_iff_of_nodup (nodup_allergens_sorted recipe)
    (nodup_allergens_sorted recipe2)).mpr (fun a => ?_)
  rw [mem_allergens_sorted, mem_allergens_sorted]
  constructor
  · rintro ⟨item, hmem, ha⟩
    exact ⟨item, hperm.mem_iff.mp hmem, ha⟩
  · rintro ⟨item, hmem, ha⟩
    exact ⟨item, hperm.mem_iff.mpr hmem, ha⟩

/-- Witness for C9: swapping two tagged lines leaves the disclosure
unchanged, and the disclosure is the sorted pair of labels. -/
theorem allergens_c9_witness :
    allergens_sorted [soy_item, nut_item] = allergens_sorted [nut_item, soy_item] ∧
    allergens_sorted [soy_item, nut_item] = [nuts_label, soy_label] :=
  ⟨(allergens_c9 [soy_item, nut_item]).2.2.2 [nut_item, soy_item]
      (List.Perm.swap nut_item soy_item []),
   by with_unfolding_all rfl⟩

/-! ## C7: blank recipe name at export -/

/-- C7: exporting with an empty or whitespace-only recipe name fails with
the validation error message, and no `RecipeRecord` is produced. -/
theorem save_recipe_blank_c7 (name : String) (recipe : List RecipeItem)
    (h : is_blank name = true) :
    save_recipe name recipe = Except.error "Введите название изделия для сохранения!" ∧
    ∀ rec : RecipeRecord, save_recipe name recipe ≠ Except.ok rec := by
  have he : save_recipe name recipe =
      Except.error "Введите название изделия для сохранения!" := by
    unfold save_recipe
    rw [if_pos (Or.inr h)]
  exact ⟨he, fun rec hok => by rw [he] at hok; exact Except.noConfusion hok⟩

/-- Witness for C7 at a whitespace-only name. -/
theorem save_recipe_blank_c7_witness :
    save_recipe "   " [] = Except.error "Введите название изделия для сохранения!" :=
  (save_recipe_blank_c7 "   " [] (by with_unfolding_all rfl)).1

/-! ## C10: the add-to-recipe quantity boundary -/

/-- C10 (failing input): the quantity widget accepts 0 (its lower bound is
`min_value=0.0`), the add handler then admits a line with `quantity_g = 0`,
violating the claimed strict positivity — and the composition block on the
resulting one-line recipe raises `ZeroDivisionError`. -/
theorem add_quantity_zero_c10 :
    quantity_input_accepts 0 = true ∧
    add_to_recipe [] flour_ing 0 = [⟨"Flour", 0, 10, 1, 70, 330, 40, none⟩] ∧
    (∃ item ∈ add_to_recipe [] flour_ing 0, ¬ 0 < item.quantity) ∧
    composition_result (add_to_recipe [] flour_ing 0) =
      Except.error "ZeroDivisionError" := by
  refine ⟨by with_unfolding_all rfl, by with_unfolding_all rfl,
    ⟨⟨"Flour", 0, 10, 1, 70, 330, 40, none⟩, by with_unfolding_all decide,
      by norm_num⟩, by with_unfolding_all rfl⟩
